import Mathlib

/-!
Shallow embedding of `src/synapse/app/homeserver.py` — the startup
orchestration of the Synapse homeserver.  The two pieces of non-trivial
logic are the schema-gated storage bootstrap (`build_db_pool`, lines
79-117) and the path dispatch tree builder (`create_resource_tree`,
lines 119-192), together with the statement order of `setup()`
(lines 220-276).
-/

namespace Synapse

/-! ## Schema constants (homeserver.py lines 46-59) -/

/-- The ordered, fixed list of schema init scripts (lines 46-54). -/
def SCHEMAS : List String :=
  ["transactions", "pdu", "users", "profiles", "presence", "im", "room_aliases"]

/-- Compiled-in expected schema version (line 59).  Stored in sqlite's
PRAGMA user_version slot, which is a signed integer, hence `Int`. -/
def SCHEMA_VERSION : Int := 1

/-! ## Schema-gated storage bootstrap (build_db_pool, lines 79-117) -/

/-- The sqlite database file as the bootstrap sees it: the PRAGMA
user_version slot (0 on a fresh database — sqlite has no separate
"unset" state) and a log of the schema scripts executed against it, in
execution order.  `c.executescript(read_schema(sql_loc))` is modelled
as appending `sql_loc` to the log: `read_schema` is an external
collaborator returning the text of the named script, and the scripts
themselves are opaque idempotent statements whose only observable
effect here is having been run. -/
structure Store where
  db_name : String
  user_version : Int
  executed : List String
deriving Repr, DecidableEq

/-- The `adbapi.ConnectionPool` constructed at lines 113-115. -/
structure Pool where
  dbapiName : String
  db_name : String
  check_same_thread : Bool
  cp_min : Nat
  cp_max : Nat
deriving Repr, DecidableEq

/-- The number of live connections the pool may ever hold open: adbapi
opens at most `cp_max` connections at a time. -/
def Pool.connectionBound (p : Pool) : Nat := p.cp_max

/-- Python truthiness of `row and row[0]` (line 90) for the row fetched
from `PRAGMA user_version`: false when the fetch produced no row or the
version slot is 0. -/
def rowTruthy : Option Int → Bool
  | none => false
  | some v => v != 0

/-- One iteration of the loop at lines 101-105: read the script named
`sql_loc` and execute it against the database. -/
def execSchema (st : Store) (sql_loc : String) : Store :=
  { st with executed := st.executed ++ [sql_loc] }

/-- The ValueError message raised at lines 95-98. -/
def staleMessage (v : Int) : String :=
  "Cannot use this database as the schema version (" ++ toString v ++
    ") does not match (" ++ toString SCHEMA_VERSION ++ ")"

/-- Lines 90-107 of `build_db_pool`, between fetching the version row
and closing the cursor, parametrised by the fetched row so that the
branch on `row and row[0]` is explicit.  Returns the database state at
exit paired with either `()` (normal exit) or the raised error. -/
def bootstrapCore (row : Option Int) (store : Store) : Store × Except String Unit :=
  if rowTruthy row then
    let user_version := row.getD 0
    if user_version < SCHEMA_VERSION then
      (store, Except.error (staleMessage user_version))
    else
      (store, Except.ok ())
  else
    let store := SCHEMAS.foldl execSchema store
    ({ store with user_version := SCHEMA_VERSION }, Except.ok ())

/-- `build_db_pool` (lines 79-117): prepare the database, then construct
the connection pool.  The first component is the database state when the
call exits (normally or by the ValueError of line 95 propagating); the
second is the returned pool, or the error — on the error path the pool
construction at line 113 is never reached. -/
def build_db_pool (store : Store) : Store × Except String Pool :=
  match bootstrapCore (some store.user_version) store with
  | (store, Except.error e) => (store, Except.error e)
  | (store, Except.ok ()) =>
      (store, Except.ok ⟨"sqlite3", store.db_name, false, 1, 1⟩)

/-! ## Path dispatch tree builder (create_resource_tree, lines 119-192) -/

/-- Identity of a live `Resource` object: an index into the arena of
nodes below.  Distinct arena slots model distinct Python objects, whose
address-based `str` makes `_resource_id` keys distinct per object. -/
abbrev NodeId := Nat

/-- A `twisted.web.resource.Resource` as the builder sees it: its
`children` dict mapping path segment to child resource.  Dict
assignment replaces the value of an existing key and otherwise adds a
new entry. -/
structure Node where
  children : List (String × NodeId)
deriving Repr, DecidableEq

/-- `Resource.listNames()`: the child segment names. -/
def Node.listNames (n : Node) : List String := n.children.map Prod.fst

/-- `Resource.putChild(seg, child)`: dict assignment
`self.children[seg] = child`. -/
def Node.putChild (n : Node) (seg : String) (child : NodeId) : Node :=
  if n.listNames.contains seg then
    ⟨n.children.map fun p => if p.1 == seg then (seg, child) else p⟩
  else
    ⟨n.children ++ [(seg, child)]⟩

/-- Child lookup by segment name, used to walk the finished tree. -/
def Node.getChild (n : Node) (seg : String) : Option NodeId :=
  (n.children.find? fun p => p.1 == seg).map Prod.snd

/-- The key built by `_resource_id` (lines 194-207):
`"%s-%s" % (resource, path_seg)`.  With the per-object address-based
`str` of the parent resource this is exactly the pair of the parent's
identity and the segment. -/
abbrev ResId := NodeId × String

/-- The mutable state of `create_resource_tree`: the arena of live
`Resource` objects (a `NodeId` indexes it) and the `resource_mappings`
dict.  Dict assignment is modelled by prepending and lookup by first
match, which gives last-assignment-wins. -/
structure TreeState where
  nodes : List Node
  resource_mappings : List (ResId × NodeId)
deriving Repr, DecidableEq

/-- Dereference a resource identity to the live object. -/
def TreeState.getNode (s : TreeState) (i : NodeId) : Node := s.nodes.getD i ⟨[]⟩

/-- `resource_mappings[res_id]` as a total lookup: `none` where Python
raises KeyError. -/
def TreeState.mapLookup (s : TreeState) (k : ResId) : Option NodeId :=
  (s.resource_mappings.find? fun e => e.1 == k).map Prod.snd

/-- `putChild` performed on the arena slot of the parent. -/
def TreeState.putChild (s : TreeState) (parent : NodeId) (seg : String) (child : NodeId) : TreeState :=
  { s with nodes := s.nodes.set parent ((s.getNode parent).putChild seg child) }

/-- `resource_mappings[res_id] = v`. -/
def TreeState.record (s : TreeState) (k : ResId) (v : NodeId) : TreeState :=
  { s with resource_mappings := (k, v) :: s.resource_mappings }

/-- The interior-segment walk of lines 156-167: for each segment but the
last, descend into the recorded child, synthesizing and recording a
dummy `Resource()` where the segment is not yet a child name.  `none`
models the KeyError raised by `resource_mappings[res_id]` at line 167
when the key is absent. -/
def walkInterior (s : TreeState) (cur : NodeId) : List String → Option (NodeId × TreeState)
  | [] => some (cur, s)
  | seg :: rest =>
    if (s.getNode cur).listNames.contains seg then
      match s.mapLookup (cur, seg) with
      | some nxt => walkInterior s nxt rest
      | none => none
    else
      let child := s.nodes.length
      let s1 : TreeState := { s with nodes := s.nodes ++ [(⟨[]⟩ : Node)] }
      let s2 := (s1.putChild cur seg child).record (cur, seg) child
      walkInterior s2 child rest

/-- The child transplant of lines 179-185: for each child name of the
resource already mapped at this path (the names are snapshotted by the
single `listNames()` call), look the child up in `resource_mappings`
and attach it to the incoming resource under the same name.  `none`
models the KeyError at line 183 when a child was never recorded. -/
def transplant (existing resource : NodeId) (s : TreeState) : List String → Option TreeState
  | [] => some s
  | name :: rest =>
    match s.mapLookup (existing, name) with
    | some child => transplant existing resource (s.putChild resource name child) rest
    | none => none

/-- Helper for `pySplit`: split a character list at every occurrence of
the separator, `cur` holding the reversed characters of the piece being
accumulated. -/
def pySplitGo (sep : Char) (cur : List Char) : List Char → List String
  | [] => [String.mk cur.reverse]
  | c :: rest =>
    if c = sep then String.mk cur.reverse :: pySplitGo sep [] rest
    else pySplitGo sep (c :: cur) rest

/-- Python `str.split(sep)` with a one-character separator, as used by
`full_path.split('/')` at lines 156 and 171: split at every occurrence,
keeping empty pieces, so that the result always has one more piece than
there are separators (in particular it is never empty). -/
def pySplit (sep : Char) (s : String) : List String :=
  pySplitGo sep [] s.data

/-- The body of the per-mount loop, lines 153-190: walk the interior
segments, optionally thieve the children of a resource already mapped at
the full path, then attach the mount's resource and record it. -/
def attachMount (root : NodeId) (s : TreeState) (full_path : String) (resource : NodeId) :
    Option TreeState :=
  let segs := pySplit '/' full_path
  match walkInterior s root ((segs.drop 1).dropLast) with
  | none => none
  | some (last_resource, s) =>
    let last_path_seg := segs.getLastD ""
    let afterSteal : Option TreeState :=
      match s.mapLookup (last_resource, last_path_seg) with
      | some existing => transplant existing resource s ((s.getNode existing).listNames)
      | none => some s
    match afterSteal with
    | none => none
    | some s =>
      some ((s.putChild last_resource last_path_seg resource).record
              (last_resource, last_path_seg) resource)

/-- `create_resource_tree` (lines 119-192), parametrised by the arena of
caller-supplied handler objects and by the `desired_tree` mount list of
(full_path, handler) pairs, each handler id indexing the arena.  The
root resource is a fresh childless node (`Resource()` and `RootRedirect`
both start with an empty children dict).  Returns the final state and
the root's identity, or `none` when a `resource_mappings` lookup raises
KeyError. -/
def create_resource_tree (handlers : List Node) (desired_tree : List (String × NodeId)) :
    Option (TreeState × NodeId) :=
  let root : NodeId := handlers.length
  let init : TreeState := ⟨handlers ++ [(⟨[]⟩ : Node)], []⟩
  match desired_tree.foldlM (fun s m => attachMount root s m.1 m.2) init with
  | some s => some (s, root)
  | none => none

/-- Walk the finished tree from a node by successive child-name lookup
(the routing view of the tree). -/
def walkSegs (s : TreeState) : NodeId → List String → Option NodeId
  | cur, [] => some cur
  | cur, seg :: rest =>
    match (s.getNode cur).getChild seg with
    | some c => walkSegs s c rest
    | none => none

/-- Build a tree from the given handler arena and mount list, then
resolve a segment path from the root; `none` when the build failed or
the walk fell off the tree. -/
def buildAndResolve (handlers : List Node) (mounts : List (String × NodeId))
    (path : List String) : Option NodeId :=
  match create_resource_tree handlers mounts with
  | some (s, root) => walkSegs s root path
  | none => none

/-! ## Startup sequence (setup, lines 220-276) -/

/-- The statements of `setup()` in program order. -/
inductive SetupStep where
  | loadConfig
  | setupLogging
  | makeTlsContext
  | makeHomeServer
  | registerServlets
  | createResourceTree
  | startListening
  | getDbPool
  | runReactor
deriving Repr, DecidableEq

/-- The straight-line statement order of `setup()` (lines 220-276):
load config, set up logging, build the TLS context, construct the
SynapseHomeServer, register servlets, create the resource tree, call
`hs.start_listening(config.bind_port)` (which invokes
`reactor.listenSSL`, line 210), call `hs.get_db_pool()`, then run the
reactor.  The conditional manhole and daemonize steps (lines 256-276)
both come after `get_db_pool` in either branch and are elided into the
trailing `runReactor` step. -/
def setupSteps : List SetupStep :=
  [SetupStep.loadConfig, SetupStep.setupLogging, SetupStep.makeTlsContext,
   SetupStep.makeHomeServer, SetupStep.registerServlets,
   SetupStep.createResourceTree, SetupStep.startListening,
   SetupStep.getDbPool, SetupStep.runReactor]

/-- Modelled from the spec: the dependency machinery by which
`hs.get_db_pool()` invokes `build_db_pool` lives in the `HomeServer`
base class (`synapse/server.py`), which is not among the source files
here; the spec describes the Orchestrator as separately calling the
bootstrap to obtain the store handle.  The schema-gated storage
bootstrap therefore runs at the `getDbPool` step of `setup()`. -/
def bootstrapStep : SetupStep := SetupStep.getDbPool

/-- Position of a step inside `setupSteps`. -/
def stepIndex (t : SetupStep) : Nat := setupSteps.findIdx (fun u => u == t)

/-! ## Lemmas about the bootstrap -/

theorem foldl_execSchema (l : List String) (s : Store) :
    l.foldl execSchema s = { s with executed := s.executed ++ l } := by
  induction l generalizing s with
  | nil => simp
  | cons a t ih => simp [List.foldl, execSchema, ih]

theorem bootstrapCore_none (s : Store) :
    bootstrapCore none s =
      ({ s with executed := s.executed ++ SCHEMAS, user_version := SCHEMA_VERSION },
        Except.ok ()) := by
  simp [bootstrapCore, rowTruthy, foldl_execSchema]

theorem bootstrapCore_zero_eq_none (s : Store) :
    bootstrapCore (some 0) s = bootstrapCore none s := by
  simp [bootstrapCore, rowTruthy]

theorem build_db_pool_zero (s : Store) (h : s.user_version = 0) :
    build_db_pool s =
      ({ s with executed := s.executed ++ SCHEMAS, user_version := SCHEMA_VERSION },
        Except.ok ⟨"sqlite3", s.db_name, false, 1, 1⟩) := by
  unfold build_db_pool
  rw [h, bootstrapCore_zero_eq_none, bootstrapCore_none]

theorem build_db_pool_current (s : Store) (h0 : s.user_version ≠ 0)
    (hge : SCHEMA_VERSION ≤ s.user_version) :
    build_db_pool s = (s, Except.ok ⟨"sqlite3", s.db_name, false, 1, 1⟩) := by
  unfold build_db_pool bootstrapCore rowTruthy
  simp [h0, not_lt.mpr hge]

theorem build_db_pool_stale (s : Store) (h0 : s.user_version ≠ 0)
    (hlt : s.user_version < SCHEMA_VERSION) :
    build_db_pool s = (s, Except.error (staleMessage s.user_version)) := by
  unfold build_db_pool bootstrapCore rowTruthy
  simp [h0, hlt]

/-! ## Claim theorems -/

/-- Claim C2, counterexample: on a database already stamped with version
2 (greater than SCHEMA_VERSION = 1), `build_db_pool` returns a pool
without aborting, yet the stamped version afterwards is 2, not
SCHEMA_VERSION — the claim that every handle-producing run ends with the
stamped version equal to SCHEMA_VERSION is false. -/
theorem c2_overstamped_store_counterexample :
    ((build_db_pool ⟨"homeserver.db", 2, []⟩).2.isOk = true) ∧
      (build_db_pool ⟨"homeserver.db", 2, []⟩).1.user_version ≠ SCHEMA_VERSION := by
  exact ⟨rfl, by decide⟩

/-- Claim C2, amended: every run of `build_db_pool` that returns a pool
leaves the stamped version at least SCHEMA_VERSION — exactly
SCHEMA_VERSION when the slot was 0 (fresh), and an already-stamped
version greater than SCHEMA_VERSION is accepted and left unchanged;
runs stamped nonzero below SCHEMA_VERSION abort before producing a
handle. -/
theorem c2_success_implies_version_ge_expected (s : Store) (p : Pool)
    (h : (build_db_pool s).2 = Except.ok p) :
    SCHEMA_VERSION ≤ (build_db_pool s).1.user_version := by
  rcases eq_or_ne s.user_version 0 with h0 | h0
  · rw [build_db_pool_zero s h0]
  · rcases lt_or_le s.user_version SCHEMA_VERSION with hlt | hge
    · rw [build_db_pool_stale s h0 hlt] at h
      exact absurd h (by simp)
    · rw [build_db_pool_current s h0 hge]
      exact hge

/-- Witness for the amended C2 at a fresh store. -/
theorem c2_success_implies_version_ge_expected_witness :
    ((build_db_pool ⟨"homeserver.db", 0, []⟩).2 =
        Except.ok ⟨"sqlite3", "homeserver.db", false, 1, 1⟩) ∧
      SCHEMA_VERSION ≤ (build_db_pool ⟨"homeserver.db", 0, []⟩).1.user_version :=
  ⟨rfl, c2_success_implies_version_ge_expected ⟨"homeserver.db", 0, []⟩
    ⟨"sqlite3", "homeserver.db", false, 1, 1⟩ rfl⟩

/-- Claim C4, counterexample: in the statement order of `setup()`, the
schema-gated storage bootstrap (the `hs.get_db_pool()` call) does NOT
precede the `hs.start_listening` call — `setup()` tells the listener to
start first, so the claim that the bootstrap completes before the
listener is told to start is false of the code. -/
theorem c4_bootstrap_not_before_listener :
    ¬ stepIndex bootstrapStep < stepIndex SetupStep.startListening := by
  decide

/-- Claim C4, amended: in `setup()`, the resource tree construction
completes before the network listener is told to start, and the
schema-gated storage bootstrap is only invoked after the listener has
been told to start — so a stale-schema abort happens after
`reactor.listenSSL` was already called, not before. -/
theorem c4_tree_then_listen_then_bootstrap :
    stepIndex SetupStep.createResourceTree < stepIndex SetupStep.startListening ∧
      stepIndex SetupStep.startListening < stepIndex bootstrapStep := by
  decide

/-- Claim C5: on a store whose version slot is 0 (no stamped version),
`build_db_pool` executes every InitScript of SCHEMAS exactly once each,
in declared order (the execution log is extended by exactly SCHEMAS),
and stamps SCHEMA_VERSION; on a store already stamped with
SCHEMA_VERSION it executes nothing and changes nothing. -/
theorem c5_fresh_applies_all_current_applies_none (s : Store) :
    (s.user_version = 0 →
        (build_db_pool s).1.executed = s.executed ++ SCHEMAS ∧
          (build_db_pool s).1.user_version = SCHEMA_VERSION ∧
          (build_db_pool s).2.isOk = true) ∧
      (s.user_version = SCHEMA_VERSION →
        (build_db_pool s).1 = s ∧ (build_db_pool s).2.isOk = true) := by
  constructor
  · intro h0
    rw [build_db_pool_zero s h0]
    exact ⟨rfl, rfl, rfl⟩
  · intro h1
    have h0 : s.user_version ≠ 0 := by rw [h1]; decide
    rw [build_db_pool_current s h0 (le_of_eq h1.symm)]
    exact ⟨rfl, rfl⟩

/-- Witness for C5 at a fresh store and at a current store. -/
theorem c5_fresh_applies_all_current_applies_none_witness :
    ((build_db_pool ⟨"homeserver.db", 0, []⟩).1.executed = [] ++ SCHEMAS ∧
        (build_db_pool ⟨"homeserver.db", 0, []⟩).1.user_version = SCHEMA_VERSION ∧
        (build_db_pool ⟨"homeserver.db", 0, []⟩).2.isOk = true) ∧
      ((build_db_pool ⟨"homeserver.db", 1, []⟩).1 = ⟨"homeserver.db", 1, []⟩ ∧
        (build_db_pool ⟨"homeserver.db", 1, []⟩).2.isOk = true) :=
  ⟨(c5_fresh_applies_all_current_applies_none ⟨"homeserver.db", 0, []⟩).1 rfl,
    (c5_fresh_applies_all_current_applies_none ⟨"homeserver.db", 1, []⟩).2 rfl⟩

/-- Claim C6: when the store carries a stamped version (a nonzero slot —
a 0 slot is the unstamped state, see C9) strictly below SCHEMA_VERSION,
`build_db_pool` raises the ValueError of line 95: the store is returned
exactly as it was (no script executed, no stamp written) and no pool is
produced. -/
theorem c6_stale_aborts_store_unchanged (s : Store)
    (h0 : s.user_version ≠ 0) (hlt : s.user_version < SCHEMA_VERSION) :
    (build_db_pool s).1 = s ∧
      (build_db_pool s).2 = Except.error (staleMessage s.user_version) := by
  rw [build_db_pool_stale s h0 hlt]
  exact ⟨rfl, rfl⟩

/-- Witness for C6 at a store stamped with version -1 (sqlite's
user_version is a signed integer). -/
theorem c6_stale_aborts_store_unchanged_witness :
    ((-1 : Int) ≠ 0 ∧ (-1 : Int) < SCHEMA_VERSION) ∧
      ((build_db_pool ⟨"homeserver.db", -1, []⟩).1 = ⟨"homeserver.db", -1, []⟩ ∧
        (build_db_pool ⟨"homeserver.db", -1, []⟩).2 =
          Except.error (staleMessage (-1))) :=
  ⟨⟨by decide, by decide⟩,
    c6_stale_aborts_store_unchanged ⟨"homeserver.db", -1, []⟩ (by decide) (by decide)⟩

/-- Claim C8: every pool returned by `build_db_pool` is the
adbapi.ConnectionPool of lines 113-115, constructed with cp_min = 1 and
cp_max = 1, so at most one live connection to the store can exist at any
time. -/
theorem c8_pool_bounded_to_one_connection (s : Store) (p : Pool)
    (h : (build_db_pool s).2 = Except.ok p) :
    p.connectionBound = 1 ∧ p.cp_min = 1 ∧ p.cp_max = 1 := by
  unfold build_db_pool at h
  rcases hb : bootstrapCore (some s.user_version) s with ⟨s1, r⟩
  rw [hb] at h
  match r with
  | Except.error e => simp at h
  | Except.ok () =>
    simp only [Except.ok.injEq] at h
    subst h
    exact ⟨rfl, rfl, rfl⟩

/-- Witness for C8 at a store already stamped with SCHEMA_VERSION. -/
theorem c8_pool_bounded_to_one_connection_witness :
    (⟨"sqlite3", "homeserver.db", false, 1, 1⟩ : Pool).connectionBound = 1 ∧
      (⟨"sqlite3", "homeserver.db", false, 1, 1⟩ : Pool).cp_min = 1 ∧
      (⟨"sqlite3", "homeserver.db", false, 1, 1⟩ : Pool).cp_max = 1 :=
  c8_pool_bounded_to_one_connection ⟨"homeserver.db", 1, []⟩
    ⟨"sqlite3", "homeserver.db", false, 1, 1⟩ rfl

/-- Claim C9: a version slot reading 0 is treated by the bootstrap
exactly like the unstamped state: the branch on `row and row[0]` (line
90) evaluates the same for a fetched row holding 0 as for no row at all,
and `build_db_pool` on a slot-0 store applies all InitScripts in order
and stamps SCHEMA_VERSION. -/
theorem c9_zero_slot_treated_as_unstamped (s : Store) :
    bootstrapCore (some 0) s = bootstrapCore none s ∧
      (build_db_pool { s with user_version := 0 }).1.executed =
        s.executed ++ SCHEMAS ∧
      (build_db_pool { s with user_version := 0 }).1.user_version =
        SCHEMA_VERSION ∧
      (build_db_pool { s with user_version := 0 }).2.isOk = true := by
  refine ⟨bootstrapCore_zero_eq_none s, ?_, ?_, ?_⟩ <;>
    simp [build_db_pool_zero { s with user_version := 0 } rfl, Except.isOk,
      Except.toBool]

/-- Claim C1, code bug: for the mount list
[("/a/b/c", R0), ("/a", R1), ("/a/b", R2)] over three distinct childless
handlers, `create_resource_tree` completes, yet walking the first
mount's own path /a/b/c from the returned root by segment lookup falls
off the tree — the handler supplied for /a/b/c is unreachable.  The
transplant of lines 180-185 attaches stolen children to their new
parent without recording them in resource_mappings, so the later /a/b
mount does not find the dummy holding R0 at res_id (R1, "b") and
replaces it without thieving, orphaning R0's subtree. -/
theorem c1_walk_misses_mounted_handler :
    (create_resource_tree [⟨[]⟩, ⟨[]⟩, ⟨[]⟩]
        [("/a/b/c", 0), ("/a", 1), ("/a/b", 2)]).isSome = true ∧
      buildAndResolve [⟨[]⟩, ⟨[]⟩, ⟨[]⟩]
        [("/a/b/c", 0), ("/a", 1), ("/a/b", 2)] ["a", "b", "c"] = none :=
  ⟨rfl, by decide⟩

/-- Claim C3, code bug: the two mount lists below are permutations of
each other, yet building in shallow-to-deep order resolves /a/b/c to
handler 0 while building the deepest mount first loses it entirely —
the construction is not order-independent, because the transplant of
lines 180-185 leaves resource_mappings out of sync with the tree. -/
theorem c3_permutation_changes_topology :
    List.Perm [("/a", 1), ("/a/b", 2), ("/a/b/c", 0)]
        ([("/a/b/c", 0), ("/a", 1), ("/a/b", 2)] : List (String × NodeId)) ∧
      buildAndResolve [⟨[]⟩, ⟨[]⟩, ⟨[]⟩]
        [("/a", 1), ("/a/b", 2), ("/a/b/c", 0)] ["a", "b", "c"] = some 0 ∧
      buildAndResolve [⟨[]⟩, ⟨[]⟩, ⟨[]⟩]
        [("/a/b/c", 0), ("/a", 1), ("/a/b", 2)] ["a", "b", "c"] = none :=
  ⟨List.perm_append_singleton ("/a/b/c", 0) [("/a", 1), ("/a/b", 2)],
    by decide, by decide⟩

/-- Claim C7, code bug: for the mount list
[("/a/b/c", R0), ("/a/b", R1), ("/a/b", R2)] — two mounts sharing the
exact path /a/b — `create_resource_tree` fails (KeyError) instead of
resolving later-mount-wins: the second /a/b mount tries to thieve R1's
child "c", which was attached to R1 by the transplant of lines 180-185
without being recorded in resource_mappings, so the lookup at line 183
misses. -/
theorem c7_duplicate_path_mount_raises :
    create_resource_tree [⟨[]⟩, ⟨[]⟩, ⟨[]⟩]
      [("/a/b/c", 0), ("/a/b", 1), ("/a/b", 2)] = none := by
  decide

/-- Claim C10, code bug: all three supplied handlers are childless and
(being distinct arena slots) have distinct identities, yet
`create_resource_tree` on
[("/a/b/c", R0), ("/a/b", R1), ("/a/b/c/d", R2)] hits the missing-key
failure branch: the interior walk of the third mount reaches R1 and
finds "c" among its child names (attached by the transplant of lines
180-185), but res_id (R1, "c") was never recorded, so the lookup at
line 167 raises KeyError — the branch is reachable even under the
claim's precondition. -/
theorem c10_interior_walk_lookup_misses :
    create_resource_tree [⟨[]⟩, ⟨[]⟩, ⟨[]⟩]
      [("/a/b/c", 0), ("/a/b", 1), ("/a/b/c/d", 2)] = none := by
  decide

end Synapse
